import Mathlib

/-!
# Formalisation of the `bridge_3d_cad` parametric bridge model

Shallow embedding of the Python sources under `src/` (validation.py,
bridge_model.py, crash_barriers.py, railing.py, deck.py,
draw_rectangular_prism.py, the `cross_bracing` package and the `sections`
package).  Numeric parameters are embedded as exact rationals (`ℚ`); Python
decimal literals such as `0.6` are read as the rationals they denote.  Solids
produced by the OpenCascade kernel are embedded as constructor trees
(`Shape`): each kernel primitive or boolean operation used by the repository
becomes one constructor, so a builder's output records exactly which
primitives it composed and with which parameters.  Functions that can raise a
Python exception are embedded in `Except String` (or with a dedicated error
type for the input validator).
-/

namespace BridgeCad

/-- Validation errors raised by `validate_bridge_inputs`
(src/validation.py).  One constructor per `raise ValueError` site, in source
order; the carriageway and deck errors carry the offending value that the
Python f-string interpolates into the message. -/
inductive ValidationError where
  | numGirders
  | girderSpacing
  | spanLength
  | crossBracingSpacingMin
  | crossBracingSpacingMax
  | carriagewayWidth (w : ℚ)
  | deckThickness (t : ℚ)
  deriving DecidableEq, Repr

/-- src/validation.py, `validate_bridge_inputs`.  The checks appear in the
source order; the footpath check (step 7) is commented out in the source, so
`footpath_config` and `footpath_width` are accepted but never inspected. -/
def validate_bridge_inputs (num_girders : ℤ)
    (girder_spacing span_length cross_bracing_spacing : ℚ)
    (deck_thickness : Option ℚ) (footpath_config : Option String)
    (footpath_width : Option ℚ) : Except ValidationError Unit :=
  if num_girders ≤ 2 ∨ 12 ≤ num_girders then
    .error .numGirders
  else if girder_spacing ≤ 1000 ∨ 24000 ≤ girder_spacing then
    .error .girderSpacing
  else if span_length ≤ 20000 ∨ 45000 ≤ span_length then
    .error .spanLength
  else if cross_bracing_spacing ≤ 1000 then
    .error .crossBracingSpacingMin
  else if span_length ≤ cross_bracing_spacing then
    .error .crossBracingSpacingMax
  else
    let carriageway_width := ((num_girders : ℚ) - 1) * girder_spacing
    if carriageway_width ≤ 4250 ∨ 24000 ≤ carriageway_width then
      .error (.carriagewayWidth carriageway_width)
    else
      match deck_thickness with
      | some t =>
          if t ≤ 100 ∨ 500 ≤ t then .error (.deckThickness t) else .ok ()
      | none => .ok ()

/-- The ordered list of checks of `validate_bridge_inputs`, paired with the
error each one raises: the boolean is the Python `if` condition of the
corresponding `raise` site, in source order. -/
def validationChecks (num_girders : ℤ)
    (girder_spacing span_length cross_bracing_spacing : ℚ)
    (deck_thickness : Option ℚ) : List (Bool × ValidationError) :=
  let carriageway_width := ((num_girders : ℚ) - 1) * girder_spacing
  [ (decide (num_girders ≤ 2 ∨ 12 ≤ num_girders), .numGirders),
    (decide (girder_spacing ≤ 1000 ∨ 24000 ≤ girder_spacing), .girderSpacing),
    (decide (span_length ≤ 20000 ∨ 45000 ≤ span_length), .spanLength),
    (decide (cross_bracing_spacing ≤ 1000), .crossBracingSpacingMin),
    (decide (span_length ≤ cross_bracing_spacing), .crossBracingSpacingMax),
    (decide (carriageway_width ≤ 4250 ∨ 24000 ≤ carriageway_width),
      .carriagewayWidth carriageway_width),
    (deck_thickness.elim false (fun t => decide (t ≤ 100 ∨ 500 ≤ t)),
      .deckThickness (deck_thickness.getD 0)) ]

/-- First failing check of an ordered check list, if any. -/
def firstFailing (checks : List (Bool × ValidationError)) :
    Except ValidationError Unit :=
  match checks.find? (fun c => c.1) with
  | some c => .error c.2
  | none => .ok ()

/-- Runtime exceptions raised by the geometry modules.  One constructor per
`raise` site (or per implicit Python exception) reachable in the embedded
code; carrying the data the Python message interpolates. -/
inductive PyError where
  | unsupportedSectionType (sectionType : String)
  | invalidDesignation (designation sectionType : String)
  | invalidConnectionType
  | invalidFootpathConfig (cfg : String)
  | invalidBracingType (bt : String)
  | unexpectedKeywordArgument
  | keyError (key : String)
  | noneTypeNotSubscriptable
  | railingHeightTooSmall
  | zeroDivisionError
  deriving DecidableEq, Repr

/-- A point of the CAD kernel (`gp_Pnt`), with exact rational coordinates. -/
structure Pnt where
  x : ℚ
  y : ℚ
  z : ℚ
  deriving DecidableEq, Repr

/-- Kernel solids, embedded as constructor trees: one constructor per
OpenCascade primitive or operation the repository uses.

  * `box` is `BRepPrimAPI_MakeBox(dx, dy, dz)`: the axis-aligned box with one
    corner at the origin.
  * `prismYZ` is a `BRepBuilderAPI_MakePolygon`/`MakeFace` profile in the
    Y–Z plane extruded by `BRepPrimAPI_MakePrism` along +X over `length`
    (crash barrier construction).
  * `iSection` records the parameters of `create_i_section`
    (`draw_i_section` module, not present in the snapshot — see its wrapper
    below).
  * `diagonalMember` records a diagonal bracing member by its determining
    data; the OCC construction rotates a stock solid through the angle
    between +X and `p2 - p1`, whose magnitude is irrational, so the member
    is embedded by the parameters that determine it (see
    `create_diagonal_member`).
  * `translate` is `BRepBuilderAPI_Transform` with a `SetTranslation`
    transform, `rotate` with a `SetRotation` about an axis direction through
    the origin (angles in radians, as the exact rationals the source
    writes, e.g. `1.5708`), `mirrorY` with `SetMirror` about the plane
    through the origin with normal (0, 1, 0), i.e. y ↦ -y.
  * `fuse` and `cut` are `BRepAlgoAPI_Fuse` / `BRepAlgoAPI_Cut`. -/
inductive Shape where
  | box (dx dy dz : ℚ)
  | prismYZ (profile : List (ℚ × ℚ)) (length : ℚ)
  | iSection (length bf d tf tw : ℚ)
  | diagonalMember (p1 p2 : Pnt) (thickness : ℚ) (sectionType : String)
      (rollSign : ℤ)
  | translate (s : Shape) (dx dy dz : ℚ)
  | rotate (s : Shape) (ax ay az : ℚ) (angle : ℚ)
  | mirrorY (s : Shape)
  | fuse (a b : Shape)
  | cut (a b : Shape)
  deriving DecidableEq, Repr

/-- Python dict values appearing in section-property dicts: the databases
hold numbers, and `bridge_model.py` adds the string-valued key
`connection_type` for double angles. -/
inductive PropVal where
  | num (q : ℚ)
  | str (s : String)
  deriving DecidableEq, Repr

/-- A section-property dict, as an association list. -/
abbrev Props := List (String × PropVal)

/-- Embeds a Python subscript `props[key]` expecting a number, where `props`
may be `None` (`create_section_solid` receives `section_props=None` by
default): `None[...]` is a `TypeError`, a missing key a `KeyError`. -/
def propNum (props : Option Props) (key : String) : Except PyError ℚ :=
  match props with
  | none => .error .noneTypeNotSubscriptable
  | some ps =>
      match ps.lookup key with
      | some (.num q) => .ok q
      | some (.str _) => .error (.keyError key)
      | none => .error (.keyError key)

/-- Embeds `props.get("connection_type", "LONGER_LEG")` from
`create_section_solid`'s DOUBLE_ANGLE branch. -/
def propConnection (props : Option Props) : String :=
  match props with
  | none => "LONGER_LEG"
  | some ps =>
      match ps.lookup "connection_type" with
      | some (.str s) => s
      | _ => "LONGER_LEG"

/-- Embeds `ISA_SECTIONS` from src/sections/section_database.py. -/
def ISA_SECTIONS : List (String × Props) :=
  [("ISA_100x100x8",
      [("leg_h", .num 100), ("leg_w", .num 100), ("thickness", .num 8)]),
   ("ISA_90x60x6",
      [("leg_h", .num 90), ("leg_w", .num 60), ("thickness", .num 6)]),
   ("ISA_75x75x6",
      [("leg_h", .num 75), ("leg_w", .num 75), ("thickness", .num 6)])]

/-- Embeds `CHANNEL_SECTIONS` from src/sections/section_database.py. -/
def CHANNEL_SECTIONS : List (String × Props) :=
  [("ISMC_100",
      [("depth", .num 100), ("flange_width", .num 50),
       ("web_thickness", .num 5), ("flange_thickness", .num 7)]),
   ("ISMC_125",
      [("depth", .num 125), ("flange_width", .num 65),
       ("web_thickness", .num (53/10)), ("flange_thickness", .num 8)]),
   ("ISMC_150",
      [("depth", .num 150), ("flange_width", .num 75),
       ("web_thickness", .num (57/10)), ("flange_thickness", .num (85/10))])]

/-- Embeds `SECTION_DATABASE` from src/sections/section_database.py: only
the keys `ANGLE` and `CHANNEL` exist. -/
def SECTION_DATABASE : List (String × List (String × Props)) :=
  [("ANGLE", ISA_SECTIONS), ("CHANNEL", CHANNEL_SECTIONS)]

/-- Embeds `get_section_props` from src/sections/section_database.py: an
unknown section type, or a designation missing from the chosen
sub-database, raises `ValueError`. -/
def get_section_props (sectionType designation : String) :
    Except PyError Props :=
  match SECTION_DATABASE.lookup sectionType with
  | none => .error (.unsupportedSectionType sectionType)
  | some db =>
      match db.lookup designation with
      | none => .error (.invalidDesignation designation sectionType)
      | some props => .ok props

/-- Embeds `SECTION_ROLL_RULES` from src/sections/section_database.py
(the source writes the radian constants `1.5708` and `2*1.5708`). -/
def SECTION_ROLL_RULES : List (String × List (String × List ℚ)) :=
  [("ANGLE",
      [("diagonal", [15708/10000, -(15708/10000)]),
       ("horizontal", [2 * (15708/10000)])]),
   ("CHANNEL",
      [("diagonal", [0]),
       ("horizontal", [2 * (15708/10000)])])]

/-- Python `max` over a nonempty list (and 0 on the empty list, which the
source never reaches: the rule lists are nonempty). -/
def pyMax : List ℚ → ℚ
  | [] => 0
  | a :: as => as.foldl max a

/-- Python `min` over a nonempty list (0 on the empty list, unreached). -/
def pyMin : List ℚ → ℚ
  | [] => 0
  | a :: as => as.foldl min a

/-- Embeds `get_section_roll_angle` from src/sections/section_database.py. -/
def get_section_roll_angle (sectionType memberRole : String)
    (rollSign : ℤ) : ℚ :=
  match SECTION_ROLL_RULES.lookup sectionType with
  | none => 0
  | some rules =>
      let allowed := (rules.lookup memberRole).getD [0]
      if allowed.length = 1 then allowed.headD 0
      else if rollSign > 0 then pyMax allowed else pyMin allowed

/-- Embeds `create_angle_section` from src/sections/angle_section.py: two
boxes fused, then the bounding box centred at the origin. -/
def create_angle_section (length leg_h leg_w thickness : ℚ) : Shape :=
  let leg1 := Shape.box length thickness leg_h
  let leg2 := Shape.box length leg_w thickness
  let angle := Shape.fuse leg1 leg2
  Shape.translate angle (-(length/2)) (-(leg_w/2)) (-(leg_h/2))

/-- Embeds `create_double_angle_section` from
src/sections/double_angle_section.py: a base angle, its mirror about the
X–Z plane, both shifted so the inner faces of the connected legs meet at
Y = 0, then fused.  An invalid `connection_type` raises `ValueError`. -/
def create_double_angle_section (length leg_h leg_w thickness : ℚ)
    (connectionType : String) : Except PyError Shape := do
  let base := create_angle_section length leg_h leg_w thickness
  let mirrored := Shape.mirrorY base
  let connected_leg ←
    if connectionType = "LONGER_LEG" then pure leg_h
    else if connectionType = "SHORTER_LEG" then pure leg_w
    else .error .invalidConnectionType
  let inner_face_offset := connected_leg / 2 - thickness
  let z_shift := -(connected_leg / 2 + thickness / 2)
  let mirrored := Shape.translate mirrored 0 (-inner_face_offset) z_shift
  let normal := Shape.translate base 0 inner_face_offset z_shift
  pure (Shape.fuse mirrored normal)

/-- Embeds `create_channel_section` from src/sections/channel_section.py:
web and two flanges fused, then centred. -/
def create_channel_section (length depth flange_width web_thickness
    flange_thickness : ℚ) : Shape :=
  let web := Shape.box length web_thickness depth
  let bottom_flange :=
    Shape.translate (Shape.box length flange_width flange_thickness) 0 0 0
  let top_flange :=
    Shape.translate (Shape.box length flange_width flange_thickness)
      0 0 (depth - flange_thickness)
  let channel := Shape.fuse (Shape.fuse web bottom_flange) top_flange
  Shape.translate channel (-(length/2)) (-(flange_width/2)) (-(depth/2))

/-- Embeds `create_double_channel_section` from
src/sections/double_channel_section.py: a channel and its mirror about the
X–Z plane, web faces brought to Y = 0, fused. -/
def create_double_channel_section (length depth flange_width web_thickness
    flange_thickness : ℚ) : Shape :=
  let normal :=
    create_channel_section length depth flange_width web_thickness
      flange_thickness
  let mirrored := Shape.mirrorY normal
  let y_web_face := -(flange_width/2) + web_thickness
  let normal := Shape.translate normal 0 (-y_web_face) 0
  let mirrored := Shape.translate mirrored 0 y_web_face 0
  Shape.fuse normal mirrored

/-- Embeds `create_section_solid` from src/sections/section_factory.py, the
factory for stock solids aligned along +X.  Property subscripts raise
`KeyError`/`TypeError` when missing, and an unknown `section_type` raises
`ValueError`, exactly as in the source. -/
def create_section_solid (sectionType : String) (length thickness : ℚ)
    (section_props : Option Props) : Except PyError Shape :=
  if sectionType = "BOX" then
    pure (Shape.box length thickness thickness)
  else if sectionType = "ANGLE" then do
    let leg_h ← propNum section_props "leg_h"
    let leg_w ← propNum section_props "leg_w"
    let t ← propNum section_props "thickness"
    pure (create_angle_section length leg_h leg_w t)
  else if sectionType = "DOUBLE_ANGLE" then do
    let leg_h ← propNum section_props "leg_h"
    let leg_w ← propNum section_props "leg_w"
    let t ← propNum section_props "thickness"
    create_double_angle_section length leg_h leg_w t
      (propConnection section_props)
  else if sectionType = "CHANNEL" then do
    let depth ← propNum section_props "depth"
    let fw ← propNum section_props "flange_width"
    let wt ← propNum section_props "web_thickness"
    let ft ← propNum section_props "flange_thickness"
    pure (create_channel_section length depth fw wt ft)
  else if sectionType = "DOUBLE_CHANNEL" then do
    let depth ← propNum section_props "depth"
    let fw ← propNum section_props "flange_width"
    let wt ← propNum section_props "web_thickness"
    let ft ← propNum section_props "flange_thickness"
    pure (create_double_channel_section length depth fw wt ft)
  else
    .error (.unsupportedSectionType sectionType)

/-- Embeds `create_diagonal_member` from
src/cross_bracing/diagonal_member.py.  The source builds a stock solid of
length `|p2 - p1|` (an irrational square root) and rotates it from +X onto
`p2 - p1` through an irrational angle; the resulting member is determined
by the endpoints, the thickness, the section type with its properties and
the roll sign, so the embedding records exactly that data in a
`Shape.diagonalMember` node.  The stock construction's success does not
depend on the length, so the embedding first runs the factory (surfacing
the same `ValueError`/`KeyError`/`TypeError` the source would raise) and
then returns the member node. -/
def create_diagonal_member (p1 p2 : Pnt) (thickness : ℚ)
    (sectionType : String) (section_props : Option Props) (rollSign : ℤ) :
    Except PyError Shape := do
  let _stock ← create_section_solid sectionType 0 thickness section_props
  pure (Shape.diagonalMember p1 p2 thickness sectionType rollSign)

/-- Embeds `create_horizontal_member_y` from
src/cross_bracing/horizontal_member.py: a stock solid of exact length
`y_right - (y_left + flange_width)`, rotated about Z by the source's
`1.5708`, rolled about Y when the section's roll angle is nonzero, then
translated to `(x, y_mid, z)`. -/
def create_horizontal_member_y (x y_left_girder_left_edge
    y_right_girder_left_edge z thickness flange_width : ℚ)
    (sectionType : String) (section_props : Option Props) (rollSign : ℤ) :
    Except PyError Shape := do
  let y_start := y_left_girder_left_edge + flange_width
  let y_end := y_right_girder_left_edge
  let length := y_end - y_start
  let y_mid := (y_start + y_end) / 2
  let solid ← create_section_solid sectionType length thickness section_props
  let solid := Shape.rotate solid 0 0 1 (15708/10000)
  let roll_angle := get_section_roll_angle sectionType "horizontal" rollSign
  let solid :=
    if 1/1000000 < |roll_angle| then Shape.rotate solid 0 1 0 roll_angle
    else solid
  pure (Shape.translate solid x y_mid z)

/-- Embeds `create_k_bracing_between_girders` from
src/cross_bracing/k_bracing.py: two diagonals meeting at the midpoint of
the bottom chord (roll signs `1` and `0` as in the source), a mandatory
bottom bracket, and an optional top bracket. -/
def create_k_bracing_between_girders (x y_left y_right girder_depth
    flange_thickness thickness flange_width : ℚ) (top_bracket : Bool)
    (sectionType : String) (section_props : Option Props) (rollSign : ℤ) :
    Except PyError (List Shape) := do
  let z_bottom := flange_thickness / 2
  let z_top := girder_depth - flange_thickness / 2
  let y_left_diagonal := y_left + flange_width
  let y_right_diagonal := y_right
  let y_mid := (y_left_diagonal + y_right_diagonal) / 2
  let d1 ← create_diagonal_member ⟨x, y_left_diagonal, z_top⟩
    ⟨x, y_mid, z_bottom⟩ thickness sectionType section_props 1
  let d2 ← create_diagonal_member ⟨x, y_right_diagonal, z_top⟩
    ⟨x, y_mid, z_bottom⟩ thickness sectionType section_props 0
  let bottom_member ← create_horizontal_member_y x y_left y_right z_bottom
    thickness flange_width sectionType section_props rollSign
  if top_bracket then do
    let top_member ← create_horizontal_member_y x y_left y_right z_top
      thickness flange_width sectionType section_props rollSign
    pure [d1, d2, bottom_member, top_member]
  else
    pure [d1, d2, bottom_member]

/-- Embeds the `translate` utility defined identically in
src/crash_barriers.py, src/railing.py and (as `_translate`)
src/sections/stiffener_plate.py: a `BRepBuilderAPI_Transform` with a pure
translation, returning a new shape. -/
def translate (shape : Shape) (x y z : ℚ) : Shape :=
  Shape.translate shape x y z

/-- Embeds `mirror_y` from src/crash_barriers.py: mirror about the plane
through the origin with normal (0, 1, 0). -/
def mirror_y (shape : Shape) : Shape :=
  Shape.mirrorY shape

/-- The New Jersey profile polygon of `create_crash_barrier`
(src/crash_barriers.py), as its six (y, z) vertices `p1 … p6` in source
order: traffic face at y = 0, base spanning to `base_width`, the heights
scaled from the 900 mm reference drawing. -/
def crashBarrierProfile (width height base_width : ℚ) : List (ℚ × ℚ) :=
  let bottom_vertical_height := 100 / 900 * height
  let slope_height := 250 / 900 * height
  let mid_width := base_width - (1/2) * (base_width - width)
  [(0, 0), (base_width, 0),
   (base_width, bottom_vertical_height),
   (mid_width, bottom_vertical_height + slope_height),
   (width, height), (0, height)]

/-- Embeds `create_crash_barrier` from src/crash_barriers.py: the profile
polygon extruded along +X over `length`. -/
def create_crash_barrier (length width height base_width : ℚ) : Shape :=
  Shape.prismYZ (crashBarrierProfile width height base_width) length

/-- Modelled from the spec: `create_crash_barrier_right` is imported from
`crash_barriers` by src/bridge_model.py and src/median/median_barrier.py,
but src/crash_barriers.py does not define it — the definition is missing
from the snapshot.  The spec describes the barriers as mirrored New Jersey
profiles placed at the carriageway edges; consistently with the placement
arithmetic of `build_crash_barrier` (which centres each barrier's base on
its placement line), the right-hand barrier is modelled as the
`create_crash_barrier` solid re-centred on its base, its traffic face
towards -Y, i.e. towards the carriageway when placed on the right side. -/
def create_crash_barrier_right (length width height base_width : ℚ) :
    Shape :=
  translate (create_crash_barrier length width height base_width)
    0 (-(base_width/2)) 0

/-- Modelled from the spec: `create_crash_barrier_left`, missing from the
snapshot like `create_crash_barrier_right`.  The spec's "mirrored
profiles" make the left barrier the mirror image of the right one across
the X–Z plane, so its traffic face points towards +Y — towards the
carriageway when placed on the left side. -/
def create_crash_barrier_left (length width height base_width : ℚ) :
    Shape :=
  mirror_y (create_crash_barrier_right length width height base_width)

/-- Embeds `place_crash_barrier` from src/crash_barriers.py: an optional
mirror (unused by the bridge), then a translation. -/
def place_crash_barrier (barrier : Shape) (x y z : ℚ)
    (mirror : Bool) : Shape :=
  if mirror then translate (mirror_y barrier) x y z
  else translate barrier x y z

/-- Embeds `create_rectangular_prism` from src/draw_rectangular_prism.py:
a box centred in X and Y with its base at Z = 0. -/
def create_rectangular_prism (length breadth height : ℚ) : Shape :=
  translate (Shape.box length breadth height)
    (-(length/2)) (-(breadth/2)) 0

/-- Embeds `create_deck_slab` from src/deck.py: a rectangular prism moved
to sit on top of the girders, centred at Y = 0. -/
def create_deck_slab (span_length deck_width deck_thickness
    girder_depth : ℚ) : Shape :=
  let slab := create_rectangular_prism span_length deck_width deck_thickness
  Shape.translate slab (span_length/2) 0 girder_depth

/-- Embeds `create_railing` from src/railing.py: a solid 100 mm base, a
body above it, `rail_count` rectangular holes cut at equal vertical
spacing (with the source's ratios 1, 0.6, 0.5 and Y offset -0.2), then
base and body fused.  A height of at most the base height raises
`ValueError`; `rail_count = 0` raises `ZeroDivisionError` at the
`body_height / rail_count` hole computation. -/
def create_railing (length width height : ℚ) (rail_count : ℕ) :
    Except PyError Shape := do
  let BASE_HEIGHT : ℚ := 100
  let body_height := height - BASE_HEIGHT
  if body_height ≤ 0 then .error .railingHeightTooSmall else
  let base := create_rectangular_prism length width BASE_HEIGHT
  let body :=
    translate (create_rectangular_prism length width body_height)
      0 0 BASE_HEIGHT
  if rail_count = 0 then .error .zeroDivisionError else
  let hole_length := 1 * length
  let hole_width := (6/10) * width
  let hole_height := (1/2) * (body_height / (rail_count : ℚ))
  let spacing := body_height / ((rail_count : ℚ) + 1)
  let body_with_holes := (List.range rail_count).foldl
    (fun b i =>
      let z_center := BASE_HEIGHT + ((i : ℚ) + 1) * spacing
      let y_offset := -(2/10) * width
      let hole := create_rectangular_prism hole_length hole_width hole_height
      let hole := translate hole ((length - hole_length) / 2)
        ((width - hole_width) / 2 + y_offset) (z_center - hole_height / 2)
      Shape.cut b hole)
    body
  pure (Shape.fuse base body_with_holes)

/-- Embeds `place_railing` from src/railing.py. -/
def place_railing (railing : Shape) (x y z : ℚ) : Shape :=
  translate railing x y z

/-- Embeds `create_girder_stiffeners` from src/sections/stiffener_plate.py:
one plate box, translated to touch the web's left and right faces (the
face positions re-derived from `create_i_section`'s layout). -/
def create_girder_stiffeners (girder_depth girder_flange_thickness
    girder_web_thickness girder_flange_width stiffener_width
    stiffener_length x_offset : ℚ) : Shape × Shape :=
  let stiffener_height := girder_depth - 2 * girder_flange_thickness
  let plate := Shape.box stiffener_length stiffener_width stiffener_height
  let z_offset := girder_flange_thickness
  let web_left_face_y := (girder_flange_width - girder_web_thickness) / 2
  let web_right_face_y := web_left_face_y + girder_web_thickness
  (translate plate x_offset (web_left_face_y - stiffener_width) z_offset,
   translate plate x_offset web_right_face_y z_offset)

/-- Modelled from the spec: `create_i_section` is imported by
src/bridge_model.py from `draw_i_section`, a module missing from the
snapshot.  The spec describes the girders as I-sections composed from
kernel primitives; the solid is determined by the five parameters
`bridge_model.py` passes (span, flange width, depth, flange thickness, web
thickness), recorded in a `Shape.iSection` node. -/
def create_i_section (span bf d tf tw : ℚ) : Shape :=
  Shape.iSection span bf d tf tw

/-- Embeds `shift_texture_to_center` from src/deck_texture.py: every
texture shape translated by `-deck_width / 2` in Y. -/
def shift_texture_to_center (texture_shapes : List Shape)
    (deck_width : ℚ) : List Shape :=
  texture_shapes.map (fun s => Shape.translate s 0 (-(deck_width/2)) 0)

/-- The module-level parameters of src/bridge_model.py (the PARAMETERS
block), gathered into one record: every builder reads only these
constants.  `Params` makes the builders explicit functions of the
parameters, so a fixed `Params` value corresponds to one loaded module. -/
structure Params where
  span_length_L : ℚ
  girder_section_d : ℚ
  girder_section_bf : ℚ
  girder_section_tf : ℚ
  girder_section_tw : ℚ
  num_girders : ℕ
  girder_spacing : ℚ
  carriageway_width : ℚ
  deck_thickness : ℚ
  footpath_config : String
  footpath_width : ℚ
  cross_bracing_spacing : ℚ
  cross_bracing_thickness : ℚ
  bracing_type : String
  x_bracket_option : String
  k_top_bracket : Bool
  cross_bracing_section_type : String
  cross_bracing_section_name : String
  cross_bracing_connection : String
  crash_barrier_width : ℚ
  crash_barrier_height : ℚ
  crash_barrier_base_width : ℚ
  railing_width : ℚ
  railing_height : ℚ
  rail_count : ℕ
  stiffener_width : ℚ
  stiffener_length : ℚ
  deriving DecidableEq, Repr

/-- The parameter values assigned at module level in src/bridge_model.py. -/
def moduleParams : Params where
  span_length_L := 25000
  girder_section_d := 900
  girder_section_bf := 500
  girder_section_tf := 260
  girder_section_tw := 100
  num_girders := 5
  girder_spacing := 2750
  carriageway_width := 12000
  deck_thickness := 400
  footpath_config := "BOTH"
  footpath_width := 2000
  cross_bracing_spacing := 4000
  cross_bracing_thickness := 100
  bracing_type := "X"
  x_bracket_option := "BOTH"
  k_top_bracket := true
  cross_bracing_section_type := "DOUBLE_ANGLE"
  cross_bracing_section_name := "ISA_90x60x6"
  cross_bracing_connection := "LONGER_LEG"
  crash_barrier_width := 175
  crash_barrier_height := 900
  crash_barrier_base_width := 450
  railing_width := 375
  railing_height := 1100
  rail_count := 3
  stiffener_width := 200
  stiffener_length := 300

/-- Embeds the module-level computation of `cross_bracing_section_props`
in src/bridge_model.py: `get_section_props(cross_bracing_section_type,
cross_bracing_section_name)`, and for `DOUBLE_ANGLE` a copy of the dict
with the `connection_type` entry added.  This runs at import time, before
any builder. -/
def cross_bracing_section_props (p : Params) : Except PyError Props := do
  let props ← get_section_props p.cross_bracing_section_type
    p.cross_bracing_section_name
  if p.cross_bracing_section_type = "DOUBLE_ANGLE" then
    pure (props ++ [("connection_type", .str p.cross_bracing_connection)])
  else
    pure props

/-- The loop body of `build_girders` (src/bridge_model.py): for girder
index `i`, an I-section and its two stiffeners (stiffener X offset
`span_length_L - stiffener_length`), all translated to the girder's Y
offset `i * girder_spacing - total_width / 2`; the moved girder is
appended to the first list and the two moved stiffeners to the second. -/
def build_girders_step (p : Params) (acc : List Shape × List Shape)
    (i : ℕ) : List Shape × List Shape :=
  let total_width := ((p.num_girders : ℚ) - 1) * p.girder_spacing
  let girder := create_i_section p.span_length_L p.girder_section_bf
    p.girder_section_d p.girder_section_tf p.girder_section_tw
  let lr := create_girder_stiffeners p.girder_section_d
    p.girder_section_tf p.girder_section_tw p.girder_section_bf
    p.stiffener_width p.stiffener_length
    (p.span_length_L - p.stiffener_length)
  let y_offset := (i : ℚ) * p.girder_spacing - total_width / 2
  (acc.1 ++ [Shape.translate girder 0 y_offset 0],
   acc.2 ++ [Shape.translate lr.1 0 y_offset 0,
             Shape.translate lr.2 0 y_offset 0])

/-- Embeds `build_girders` from src/bridge_model.py: the loop over all
girder indices, starting from empty girder and stiffener lists. -/
def build_girders (p : Params) : List Shape × List Shape :=
  (List.range p.num_girders).foldl (build_girders_step p) ([], [])

/-- Embeds `calculate_deck_width` from src/bridge_model.py (defined twice
identically there; the second definition shadows the first): total deck
width per footpath configuration, `ValueError` on any other string. -/
def calculate_deck_width (p : Params) (cfg : String) : Except PyError ℚ :=
  if cfg = "NONE" then
    pure (p.carriageway_width + 2 * p.crash_barrier_base_width)
  else if cfg = "LEFT" ∨ cfg = "RIGHT" then
    pure (p.carriageway_width + 2 * p.crash_barrier_base_width
      + p.footpath_width + p.railing_width)
  else if cfg = "BOTH" then
    pure (p.carriageway_width + 2 * p.crash_barrier_base_width
      + 2 * p.footpath_width + 2 * p.railing_width)
  else
    .error (.invalidFootpathConfig cfg)

/-- Embeds `calculate_carriageway_offset` from src/bridge_model.py. -/
def calculate_carriageway_offset (p : Params) (cfg : String) :
    Except PyError ℚ :=
  if cfg = "NONE" ∨ cfg = "BOTH" then
    pure 0
  else if cfg = "LEFT" then
    pure ((p.footpath_width + p.railing_width) / 2)
  else if cfg = "RIGHT" then
    pure (-((p.footpath_width + p.railing_width) / 2))
  else
    .error (.invalidFootpathConfig cfg)

/-- Embeds `build_deck` from src/bridge_model.py. -/
def build_deck (p : Params) : Except PyError Shape := do
  let total_deck_width ← calculate_deck_width p p.footpath_config
  pure (create_deck_slab p.span_length_L total_deck_width
    p.deck_thickness p.girder_section_d)

/-- Python `int()` truncation of a rational towards zero (floor for
non-negative values, ceiling for negative ones), as applied to the
division `span_length_L / cross_bracing_spacing`. -/
def pyInt (x : ℚ) : ℤ :=
  if 0 ≤ x then ⌊x⌋ else ⌈x⌉

/-- The list of bracing X positions computed inside `build_cross_bracing`
(src/bridge_model.py): `n = int(L / s) - 1`, `n_total = n + 2`,
`spacing = L / (n_total - 1)` and positions `i * spacing` for
`i = 0 … n_total - 1` (an empty list when `n_total ≤ 0`). -/
def cross_bracing_x_positions (span_length spacing_param : ℚ) : List ℚ :=
  let n : ℤ := pyInt (span_length / spacing_param) - 1
  let n_total : ℤ := n + 2
  let spacing : ℚ := span_length / ((n_total - 1 : ℤ) : ℚ)
  (List.range n_total.toNat).map (fun (i : ℕ) => (i : ℚ) * spacing)

/-- Sequential `extend` over a list of fallible calls: Python's loop
appends each call's members in order and propagates the first exception. -/
def exceptFlatMap {α β ε : Type} (f : α → Except ε (List β)) :
    List α → Except ε (List β)
  | [] => .ok []
  | a :: as => do
      let hd ← f a
      let tl ← exceptFlatMap f as
      pure (hd ++ tl)

/-- Embeds `build_cross_bracing` from src/bridge_model.py.

The builder reads the module-level global `cross_bracing_section_props`
(whose computation raises for the configured `DOUBLE_ANGLE`, see
`cross_bracing_section_props`); it then loops over the X positions and the
adjacent girder pairs.

The `bracing_type == "X"` branch calls `create_x_bracing_between_girders`
with the keyword arguments `section_type=` and `section_props=`
(src/bridge_model.py lines 226–237).  That name resolves to the
`cross_bracing` package (src/cross_bracing/__init__.py — a regular package
shadows the sibling module src/cross_bracing.py), whose
`create_x_bracing_between_girders` (src/cross_bracing/x_bracing.py) has
exactly eight parameters ending at `bracket_option` and no `**kwargs`, so
Python raises `TypeError: unexpected keyword argument` at the call site
before any bracing geometry is built.  The embedding returns that error in
the X branch.

The `"K"` branch's keywords all exist on
`create_k_bracing_between_girders` (src/cross_bracing/k_bracing.py), so it
is called normally (`roll_sign` keeps its default +1).  A division by zero
in `spacing = span_length_L / (n_total - 1)` raises `ZeroDivisionError`
exactly when `n_total = 1`. -/
def build_cross_bracing (p : Params) : Except PyError (List Shape) := do
  let props ← cross_bracing_section_props p
  let n : ℤ := pyInt (p.span_length_L / p.cross_bracing_spacing) - 1
  let n_total : ℤ := n + 2
  if n_total - 1 = 0 then .error .zeroDivisionError else
  let x_positions := cross_bracing_x_positions p.span_length_L
    p.cross_bracing_spacing
  let total_width := ((p.num_girders : ℚ) - 1) * p.girder_spacing
  exceptFlatMap
    (fun x =>
      exceptFlatMap
        (fun (g : ℕ) =>
          let y_left := (g : ℚ) * p.girder_spacing - total_width / 2
          let y_right := ((g : ℚ) + 1) * p.girder_spacing - total_width / 2
          if p.bracing_type = "X" then
            .error .unexpectedKeywordArgument
          else if p.bracing_type = "K" then
            create_k_bracing_between_girders x y_left y_right
              p.girder_section_d p.girder_section_tf
              p.cross_bracing_thickness p.girder_section_bf
              p.k_top_bracket p.cross_bracing_section_type (some props) 1
          else
            .error (.invalidBracingType p.bracing_type))
        (List.range (p.num_girders - 1)))
    x_positions

/-- Embeds `build_crash_barrier` from src/bridge_model.py: deck width,
carriageway offset and edges, then one right and one left barrier per the
footpath configuration, in the source's append order.  The trailing
`if/elif` chain has no `else`, so an unmatched configuration yields the
empty list (unreachable in `main`, since `calculate_deck_width` raises
first). -/
def build_crash_barrier (p : Params) (deck_top_z : ℚ) :
    Except PyError (List Shape) := do
  let total_deck_width ← calculate_deck_width p p.footpath_config
  let deck_half_width := total_deck_width / 2
  let carriageway_offset ← calculate_carriageway_offset p p.footpath_config
  let carriageway_half_width := p.carriageway_width / 2
  let carriageway_right_edge := carriageway_offset + carriageway_half_width
  let carriageway_left_edge := carriageway_offset - carriageway_half_width
  let barrier_right := create_crash_barrier_right p.span_length_L
    p.crash_barrier_width p.crash_barrier_height p.crash_barrier_base_width
  let barrier_left := create_crash_barrier_left p.span_length_L
    p.crash_barrier_width p.crash_barrier_height p.crash_barrier_base_width
  if p.footpath_config = "NONE" then
    pure [place_crash_barrier barrier_right 0
            (deck_half_width - p.crash_barrier_base_width / 2)
            deck_top_z false,
          place_crash_barrier barrier_left 0
            (-deck_half_width + p.crash_barrier_base_width / 2)
            deck_top_z false]
  else if p.footpath_config = "LEFT" then
    pure [place_crash_barrier barrier_right 0
            (deck_half_width - p.crash_barrier_base_width / 2)
            deck_top_z false,
          place_crash_barrier barrier_left 0
            (carriageway_left_edge - p.crash_barrier_base_width / 2)
            deck_top_z false]
  else if p.footpath_config = "RIGHT" then
    pure [place_crash_barrier barrier_left 0
            (-deck_half_width + p.crash_barrier_base_width / 2)
            deck_top_z false,
          place_crash_barrier barrier_right 0
            (carriageway_right_edge + p.crash_barrier_base_width / 2)
            deck_top_z false]
  else if p.footpath_config = "BOTH" then
    pure [place_crash_barrier barrier_right 0
            (carriageway_right_edge + p.crash_barrier_base_width / 2)
            deck_top_z false,
          place_crash_barrier barrier_left 0
            (carriageway_left_edge - p.crash_barrier_base_width / 2)
            deck_top_z false]
  else
    pure []

/-- Embeds `build_railing` from src/bridge_model.py: no railings without a
footpath; otherwise one base railing placed at the left deck edge for
`LEFT`/`BOTH` and at the right deck edge for `RIGHT`/`BOTH`, at height
`deck_top_z`. -/
def build_railing (p : Params) (deck_top_z : ℚ) :
    Except PyError (List Shape) := do
  if p.footpath_config = "NONE" then pure [] else
  let base_railing ← create_railing p.span_length_L p.railing_width
    p.railing_height p.rail_count
  let total_deck_width ← calculate_deck_width p p.footpath_config
  let deck_half_width := total_deck_width / 2
  let left_railings :=
    if p.footpath_config = "LEFT" ∨ p.footpath_config = "BOTH" then
      [place_railing base_railing (p.span_length_L / 2)
        (-(deck_half_width - p.railing_width / 2)) deck_top_z]
    else []
  let right_railings :=
    if p.footpath_config = "RIGHT" ∨ p.footpath_config = "BOTH" then
      [place_railing base_railing (p.span_length_L / 2)
        (deck_half_width - p.railing_width / 2) deck_top_z]
    else []
  pure (left_railings ++ right_railings)

/-- The six component groups `assemble_bridge` returns. -/
structure BridgeComponents where
  girders : List Shape
  stiffeners : List Shape
  cross_bracings : List Shape
  deck : Shape
  crash_barriers : List Shape
  railings : List Shape
  deriving DecidableEq, Repr

/-- Embeds `assemble_bridge` from src/bridge_model.py: girders and
stiffeners, cross bracings, deck, then `deck_top_z = girder_section_d +
deck_thickness` and the crash barriers and railings at that height. -/
def assemble_bridge (p : Params) : Except PyError BridgeComponents := do
  let gs := build_girders p
  let cross_bracings ← build_cross_bracing p
  let deck ← build_deck p
  let deck_top_z := p.girder_section_d + p.deck_thickness
  let crash_barriers ← build_crash_barrier p deck_top_z
  let railings ← build_railing p deck_top_z
  pure ⟨gs.1, gs.2, cross_bracings, deck, crash_barriers, railings⟩

/-- The same six components computed with the builders evaluated in the
reverse order (railings first, girders last), used to state that builder
evaluation order does not affect the assembly. -/
def assemble_bridge_reordered (p : Params) :
    Except PyError BridgeComponents := do
  let deck_top_z := p.girder_section_d + p.deck_thickness
  let railings ← build_railing p deck_top_z
  let crash_barriers ← build_crash_barrier p deck_top_z
  let deck ← build_deck p
  let cross_bracings ← build_cross_bracing p
  let gs := build_girders p
  pure ⟨gs.1, gs.2, cross_bracings, deck, crash_barriers, railings⟩

/-- A kernel shape store: the OCC kernel owns the solids, Python code holds
handles (indices).  Every `BRepBuilderAPI_Transform(…, True).Shape()`,
`BRepAlgoAPI_Fuse(…).Shape()` and `BRepAlgoAPI_Cut(…).Shape()` call in the
repository allocates a new shape and returns its handle; this store model
makes that explicit so that immutability of already-stored solids is a
statement about the store. -/
abbrev Store := List Shape

/-- The dummy shape a dangling handle dereferences to (never used by
well-formed code). -/
def defaultShape : Shape := Shape.box 0 0 0

/-- Dereferences a handle in a store. -/
def lookupShape (st : Store) (h : ℕ) : Shape :=
  st.getD h defaultShape

/-- Allocates a new shape, returning the extended store and the fresh
handle. -/
def allocShape (st : Store) (s : Shape) : Store × ℕ :=
  (st ++ [s], st.length)

/-- The `translate` utility as a store operation: reads the input handle,
allocates the translated copy. -/
def translateOp (st : Store) (h : ℕ) (x y z : ℚ) : Store × ℕ :=
  allocShape st (translate (lookupShape st h) x y z)

/-- The `mirror_y` utility as a store operation. -/
def mirrorYOp (st : Store) (h : ℕ) : Store × ℕ :=
  allocShape st (mirror_y (lookupShape st h))

/-- Embeds `place_crash_barrier` on the store: an optional mirror
allocation, then a translate allocation. -/
def place_crash_barrier_op (st : Store) (h : ℕ) (x y z : ℚ)
    (mirror : Bool) : Store × ℕ :=
  if mirror then
    let m := mirrorYOp st h
    translateOp m.1 m.2 x y z
  else
    translateOp st h x y z

/-- Embeds `place_railing` on the store. -/
def place_railing_op (st : Store) (h : ℕ) (x y z : ℚ) : Store × ℕ :=
  translateOp st h x y z

/-- Embeds `BRepAlgoAPI_Fuse` on the store. -/
def fuseOp (st : Store) (a b : ℕ) : Store × ℕ :=
  allocShape st (Shape.fuse (lookupShape st a) (lookupShape st b))

/-- Embeds `BRepAlgoAPI_Cut` on the store. -/
def cutOp (st : Store) (a b : ℕ) : Store × ℕ :=
  allocShape st (Shape.cut (lookupShape st a) (lookupShape st b))

/-- Embeds `shift_texture_to_center` on the store: one translate
allocation per texture handle, collecting the fresh handles. -/
def shift_texture_to_center_op (st : Store) (hs : List ℕ)
    (deck_width : ℚ) : Store × List ℕ :=
  hs.foldl
    (fun acc h =>
      let r := translateOp acc.1 h 0 (-(deck_width/2)) 0
      (r.1, acc.2 ++ [r.2]))
    (st, [])

/-- A small parameter record used to exercise the builders on a concrete
configuration on which the whole assembly succeeds: one girder, a short
span, `K` bracing with an `ANGLE` section (the designation
`ISA_90x60x6` is kept and exists in `ISA_SECTIONS`), and no footpath. -/
def smallParams : Params :=
  { moduleParams with
      num_girders := 1
      span_length_L := 200
      cross_bracing_spacing := 150
      footpath_config := "NONE"
      bracing_type := "K"
      cross_bracing_section_type := "ANGLE" }

/-- The empty component record (used as a fallback value when projecting
out of an `Except`). -/
def emptyComponents : BridgeComponents :=
  ⟨[], [], [], defaultShape, [], []⟩

/-- The property dict of the `ISA_90x60x6` angle designation (the entry
of `ISA_SECTIONS` that `cross_bracing_section_name` selects). -/
def propsISA90 : Props :=
  [("leg_h", PropVal.num 90), ("leg_w", PropVal.num 60),
   ("thickness", PropVal.num 6)]

/-- The module parameters with only the section type corrected to
`ANGLE` (so that the module-level section lookup succeeds) and everything
else as configured — in particular `bracing_type = "X"`. -/
def xAngleParams : Params :=
  { moduleParams with cross_bracing_section_type := "ANGLE" }

/-- The module parameters with the section type corrected to `ANGLE` and
the bracing type switched to `K` (the branch whose keyword arguments all
exist on the callee). -/
def kAngleParams : Params :=
  { moduleParams with
      cross_bracing_section_type := "ANGLE"
      bracing_type := "K" }

/-- Allocation preserves every shape already in the store. -/
theorem allocShape_preserves (st : Store) (s : Shape) (i : ℕ)
    (hi : i < st.length) : (allocShape st s).1[i]? = st[i]? := by
  simp only [allocShape]
  rw [List.getElem?_append, if_pos hi]

/-- Allocation grows the store by one. -/
theorem allocShape_length (st : Store) (s : Shape) :
    (allocShape st s).1.length = st.length + 1 := by
  simp [allocShape]

/-- A translate allocation preserves every shape already in the store. -/
theorem translateOp_preserves (st : Store) (h : ℕ) (x y z : ℚ) (i : ℕ)
    (hi : i < st.length) : (translateOp st h x y z).1[i]? = st[i]? :=
  allocShape_preserves st _ i hi

/-- Store-preservation for the texture-shift loop, generalised over the
accumulator. -/
theorem shift_fold_preserves (hs : List ℕ) (st : Store)
    (acc : List ℕ) (w : ℚ) (i : ℕ) (hi : i < st.length) :
    (hs.foldl
      (fun acc h =>
        let r := translateOp acc.1 h 0 (-(w/2)) 0
        (r.1, acc.2 ++ [r.2]))
      (st, acc)).1[i]? = st[i]? := by
  induction hs generalizing st acc with
  | nil => rfl
  | cons h hs ih =>
      have hlen : i < (translateOp st h 0 (-(w/2)) 0).1.length := by
        have := allocShape_length st (translate (lookupShape st h) 0 (-(w/2)) 0)
        simp only [translateOp] at *
        omega
      calc (((h :: hs).foldl
              (fun acc h =>
                let r := translateOp acc.1 h 0 (-(w/2)) 0
                (r.1, acc.2 ++ [r.2]))
              (st, acc)).1)[i]?
          = (translateOp st h 0 (-(w/2)) 0).1[i]? := ih _ _ hlen
        _ = st[i]? := translateOp_preserves st h 0 (-(w/2)) 0 i hi

/-- C8: Solids are immutable once constructed.  Every placement and
combination operation the repository applies to stored solids —
`translate`, `place_crash_barrier` (with or without its mirror option),
`place_railing`, `shift_texture_to_center`, boolean `fuse` and `cut` —
allocates new shapes and leaves every shape already in the store exactly
as it was: position `i` of the store is unchanged by each operation, and
the handle returned is the freshly allocated one (`st.length`), never an
existing handle. -/
theorem solids_immutable_under_operations (st : Store) (i : ℕ)
    (hi : i < st.length) :
    (∀ h x y z, (translateOp st h x y z).1[i]? = st[i]?
      ∧ (translateOp st h x y z).2 = st.length) ∧
    (∀ h x y z mirror,
      (place_crash_barrier_op st h x y z mirror).1[i]? = st[i]?) ∧
    (∀ h x y z, (place_railing_op st h x y z).1[i]? = st[i]?) ∧
    (∀ hs w, (shift_texture_to_center_op st hs w).1[i]? = st[i]?) ∧
    (∀ a b, (fuseOp st a b).1[i]? = st[i]?
      ∧ (fuseOp st a b).2 = st.length) ∧
    (∀ a b, (cutOp st a b).1[i]? = st[i]?
      ∧ (cutOp st a b).2 = st.length) := by
  refine ⟨fun h x y z => ⟨allocShape_preserves st _ i hi, rfl⟩,
    fun h x y z mirror => ?_,
    fun h x y z => allocShape_preserves st _ i hi,
    fun hs w => shift_fold_preserves hs st [] w i hi,
    fun a b => ⟨allocShape_preserves st _ i hi, rfl⟩,
    fun a b => ⟨allocShape_preserves st _ i hi, rfl⟩⟩
  cases mirror with
  | false => exact allocShape_preserves st _ i hi
  | true =>
      have hi' : i < (mirrorYOp st h).1.length := by
        have := allocShape_length st (mirror_y (lookupShape st h))
        simp only [mirrorYOp] at *
        omega
      calc (place_crash_barrier_op st h x y z true).1[i]?
          = (mirrorYOp st h).1[i]? :=
            translateOp_preserves (mirrorYOp st h).1 (mirrorYOp st h).2
              x y z i hi'
        _ = st[i]? := allocShape_preserves st _ i hi

/-- Witness for `solids_immutable_under_operations`: in a store of two
boxes, fusing them leaves slot 0 holding exactly the box that was there
before the operation. -/
theorem solids_immutable_under_operations_witness :
    (fuseOp [Shape.box 1 2 3, Shape.box 4 5 6] 0 1).1[0]?
      = some (Shape.box 1 2 3) := by
  have h :=
    ((solids_immutable_under_operations [Shape.box 1 2 3, Shape.box 4 5 6]
      0 (by decide)).2.2.2.2.1 0 1).1
  rw [h]
  rfl

/-- A check list whose head fails yields the head's error. -/
theorem firstFailing_cons_true {b : Bool} {e : ValidationError}
    {rest : List (Bool × ValidationError)} (h : b = true) :
    firstFailing ((b, e) :: rest) = .error e := by
  simp [firstFailing, List.find?, h]

/-- A check list whose head passes defers to the remaining checks. -/
theorem firstFailing_cons_false {b : Bool} {e : ValidationError}
    {rest : List (Bool × ValidationError)} (h : b = false) :
    firstFailing ((b, e) :: rest) = firstFailing rest := by
  simp [firstFailing, List.find?, h]

/-- An ordered check list yields an error exactly when some check in it
fails. -/
theorem firstFailing_error_iff (cs : List (Bool × ValidationError)) :
    (∃ e, firstFailing cs = .error e) ↔ ∃ c ∈ cs, c.1 = true := by
  unfold firstFailing
  cases hf : cs.find? (fun c => c.1) with
  | none =>
      constructor
      · rintro ⟨e, he⟩
        exact Except.noConfusion he
      · rintro ⟨c, hc, hc1⟩
        have h2 := List.find?_eq_none.mp hf c hc
        simp only [hc1] at h2
        exact (h2 trivial).elim
  | some c =>
      constructor
      · intro _
        exact ⟨c, List.mem_of_find?_eq_some hf, by
          simpa using List.find?_some hf⟩
      · intro _
        exact ⟨c.2, rfl⟩

/-- C1: `validate_bridge_inputs` raises `ValueError` exactly when one of
the six range checks fails (girder count, girder spacing, span length,
cross-bracing spacing against 1 m and against the span, carriageway width
`(num_girders - 1) * girder_spacing`, and — only when provided — deck
thickness); `footpath_config` and `footpath_width` never affect the
outcome (the footpath check is commented out in the source); and the
checks run in source order, the raised error being the first failing
check's. -/
theorem validate_bridge_inputs_error_iff (n : ℤ) (gs sl cbs : ℚ)
    (dt : Option ℚ) (fc fc' : Option String) (fw fw' : Option ℚ) :
    ((∃ e, validate_bridge_inputs n gs sl cbs dt fc fw = .error e) ↔
      ((n ≤ 2 ∨ 12 ≤ n) ∨ (gs ≤ 1000 ∨ 24000 ≤ gs)
        ∨ (sl ≤ 20000 ∨ 45000 ≤ sl) ∨ (cbs ≤ 1000 ∨ sl ≤ cbs)
        ∨ (((n : ℚ) - 1) * gs ≤ 4250 ∨ 24000 ≤ ((n : ℚ) - 1) * gs)
        ∨ (∃ t, dt = some t ∧ (t ≤ 100 ∨ 500 ≤ t))))
    ∧ validate_bridge_inputs n gs sl cbs dt fc fw
        = validate_bridge_inputs n gs sl cbs dt fc' fw'
    ∧ validate_bridge_inputs n gs sl cbs dt fc fw
        = firstFailing (validationChecks n gs sl cbs dt) := by
  have korder : validate_bridge_inputs n gs sl cbs dt fc fw
      = firstFailing (validationChecks n gs sl cbs dt) := by
    simp only [validate_bridge_inputs, validationChecks]
    split_ifs with h1 h2 h3 h4 h5 h6
    · rw [firstFailing_cons_true (by simpa using h1)]
    · rw [firstFailing_cons_false (by simpa using h1),
        firstFailing_cons_true (by simpa using h2)]
    · rw [firstFailing_cons_false (by simpa using h1),
        firstFailing_cons_false (by simpa using h2),
        firstFailing_cons_true (by simpa using h3)]
    · rw [firstFailing_cons_false (by simpa using h1),
        firstFailing_cons_false (by simpa using h2),
        firstFailing_cons_false (by simpa using h3),
        firstFailing_cons_true (by simpa using h4)]
    · rw [firstFailing_cons_false (by simpa using h1),
        firstFailing_cons_false (by simpa using h2),
        firstFailing_cons_false (by simpa using h3),
        firstFailing_cons_false (by simpa using h4),
        firstFailing_cons_true (by simpa using h5)]
    · rw [firstFailing_cons_false (by simpa using h1),
        firstFailing_cons_false (by simpa using h2),
        firstFailing_cons_false (by simpa using h3),
        firstFailing_cons_false (by simpa using h4),
        firstFailing_cons_false (by simpa using h5),
        firstFailing_cons_true (by simpa using h6)]
    · rw [firstFailing_cons_false (by simpa using h1),
        firstFailing_cons_false (by simpa using h2),
        firstFailing_cons_false (by simpa using h3),
        firstFailing_cons_false (by simpa using h4),
        firstFailing_cons_false (by simpa using h5),
        firstFailing_cons_false (by simpa using h6)]
      rcases dt with _ | t
      · simp [firstFailing, List.find?]
      · simp only [Option.elim]
        split_ifs with h7
        · rw [firstFailing_cons_true (by simpa using h7)]
          simp
        · rw [firstFailing_cons_false (by simpa using h7)]
          simp [firstFailing, List.find?]
  refine ⟨?_, rfl, korder⟩
  rw [korder, firstFailing_error_iff]
  rcases dt with _ | t
  · simp [validationChecks]
    tauto
  · simp [validationChecks]
    tauto

/-- C2 counterexample: positivity of all length parameters does not make
`validate_bridge_inputs` accept.  With `girder_spacing = 500` — positive,
like every other length here — the validator raises (girder spacing must
exceed 1000 mm). -/
theorem validate_rejects_positive_inputs :
    ((0:ℚ) < 500 ∧ (0:ℚ) < 25000 ∧ (0:ℚ) < 4000 ∧ (0:ℚ) < 400)
    ∧ validate_bridge_inputs 5 500 25000 4000 (some 400) none none
        = .error .girderSpacing := by
  refine ⟨by norm_num, ?_⟩
  norm_num [validate_bridge_inputs]

/-- C2 amended: the validator enforces its range checks, not mere
positivity.  Inputs satisfying every range check are accepted, and the
range checks themselves force all length parameters to be positive — but
positivity alone is not sufficient (see the counterexample). -/
theorem validate_accepts_range_checked_inputs (n : ℤ) (gs sl cbs : ℚ)
    (dt : Option ℚ) (fc : Option String) (fw : Option ℚ)
    (h1 : 2 < n ∧ n < 12) (h2 : 1000 < gs ∧ gs < 24000)
    (h3 : 20000 < sl ∧ sl < 45000) (h4 : 1000 < cbs ∧ cbs < sl)
    (h5 : 4250 < ((n : ℚ) - 1) * gs ∧ ((n : ℚ) - 1) * gs < 24000)
    (h6 : ∀ t, dt = some t → 100 < t ∧ t < 500) :
    validate_bridge_inputs n gs sl cbs dt fc fw = .ok ()
    ∧ (0 < gs ∧ 0 < sl ∧ 0 < cbs ∧ ∀ t, dt = some t → 0 < t) := by
  obtain ⟨h1a, h1b⟩ := h1
  obtain ⟨h2a, h2b⟩ := h2
  obtain ⟨h3a, h3b⟩ := h3
  obtain ⟨h4a, h4b⟩ := h4
  obtain ⟨h5a, h5b⟩ := h5
  refine ⟨?_, by linarith, by linarith, by linarith,
    fun t ht => by have := h6 t ht; linarith [this.1]⟩
  simp only [validate_bridge_inputs]
  rw [if_neg (by push_neg; omega), if_neg (by push_neg; constructor <;> linarith),
    if_neg (by push_neg; constructor <;> linarith), if_neg (by linarith),
    if_neg (by linarith), if_neg (by push_neg; constructor <;> linarith)]
  rcases dt with _ | t
  · rfl
  · have ht := h6 t rfl
    simp only []
    rw [if_neg (by push_neg; constructor <;> linarith [ht.1, ht.2])]

/-- Witness for `validate_accepts_range_checked_inputs`, at the module's
own parameter values. -/
theorem validate_accepts_range_checked_inputs_witness :
    validate_bridge_inputs 5 2750 25000 4000 (some 400) none none = .ok ()
    ∧ ((0:ℚ) < 2750 ∧ (0:ℚ) < 25000 ∧ (0:ℚ) < 4000
        ∧ ∀ t : ℚ, (some 400 : Option ℚ) = some t → 0 < t) :=
  validate_accepts_range_checked_inputs 5 2750 25000 4000 (some 400)
    none none (by norm_num) (by norm_num) (by norm_num) (by norm_num)
    (by norm_num)
    (fun t ht => by simp at ht; simp [← ht]; norm_num)

/-- C4: `get_section_props` raises `ValueError` for every section type
other than `ANGLE` and `CHANNEL`, and for every designation missing from
the chosen sub-database; in particular it raises for `DOUBLE_ANGLE` with
any designation, so the module-level `cross_bracing_section_props`
computation of src/bridge_model.py — configured with
`cross_bracing_section_type = "DOUBLE_ANGLE"` — fails before any geometry
is built. -/
theorem get_section_props_unknown_types_error :
    (∀ st d, st ≠ "ANGLE" → st ≠ "CHANNEL" →
      get_section_props st d = .error (.unsupportedSectionType st))
    ∧ (∀ st db d, SECTION_DATABASE.lookup st = some db →
        db.lookup d = none →
        get_section_props st d = .error (.invalidDesignation d st))
    ∧ (∀ d, get_section_props "DOUBLE_ANGLE" d
        = .error (.unsupportedSectionType "DOUBLE_ANGLE"))
    ∧ cross_bracing_section_props moduleParams
        = .error (.unsupportedSectionType "DOUBLE_ANGLE") := by
  have hmain : ∀ st d, st ≠ "ANGLE" → st ≠ "CHANNEL" →
      get_section_props st d = .error (.unsupportedSectionType st) := by
    intro st d hA hC
    have e1 : (st == "ANGLE") = false := beq_eq_false_iff_ne.mpr hA
    have e2 : (st == "CHANNEL") = false := beq_eq_false_iff_ne.mpr hC
    simp [get_section_props, SECTION_DATABASE, List.lookup, e1, e2]
  refine ⟨hmain, ?_, fun d => hmain _ d (by decide) (by decide), ?_⟩
  · intro st db d hst hd
    by_cases hA : st = "ANGLE"
    · subst hA
      have hdb : SECTION_DATABASE.lookup "ANGLE" = some ISA_SECTIONS := by
        simp [SECTION_DATABASE, List.lookup]
      rw [hdb] at hst
      cases hst
      simp only [get_section_props, hdb, hd]
    · by_cases hC : st = "CHANNEL"
      · subst hC
        have e1 : ("CHANNEL" == "ANGLE") = false := by decide
        have hdb : SECTION_DATABASE.lookup "CHANNEL"
            = some CHANNEL_SECTIONS := by
          simp [SECTION_DATABASE, List.lookup, e1]
        rw [hdb] at hst
        cases hst
        simp only [get_section_props, hdb, hd]
      · have e1 : (st == "ANGLE") = false := beq_eq_false_iff_ne.mpr hA
        have e2 : (st == "CHANNEL") = false := beq_eq_false_iff_ne.mpr hC
        simp [SECTION_DATABASE, List.lookup, e1, e2] at hst
  · have h := hmain "DOUBLE_ANGLE" "ISA_90x60x6" (by decide) (by decide)
    simp [cross_bracing_section_props, moduleParams, h]

/-- Witness for `get_section_props_unknown_types_error`: the module's own
configuration (`DOUBLE_ANGLE`, `ISA_90x60x6`) is rejected. -/
theorem get_section_props_unknown_types_error_witness :
    get_section_props "DOUBLE_ANGLE" "ISA_90x60x6"
      = .error (.unsupportedSectionType "DOUBLE_ANGLE") :=
  get_section_props_unknown_types_error.1 "DOUBLE_ANGLE" "ISA_90x60x6"
    (by decide) (by decide)

/-- C3: the left crash barrier is the kernel mirror image of the right
one across the bridge's longitudinal centerline plane (the X–Z plane
`y = 0`, normal (0, 1, 0)) for every length, width, height and base
width; and `build_crash_barrier` obtains its right barrier from
`create_crash_barrier_right` and its left barrier from
`create_crash_barrier_left` in every footpath configuration, placing the
pair symmetrically (`y` and `-y`) in the symmetric configurations
`BOTH` and `NONE`. -/
theorem crash_barriers_left_right_mirrored (l w h bw : ℚ) (p : Params)
    (z : ℚ) :
    create_crash_barrier_left l w h bw
      = mirror_y (create_crash_barrier_right l w h bw)
    ∧ build_crash_barrier {p with footpath_config := "BOTH"} z
        = .ok [place_crash_barrier
            (create_crash_barrier_right p.span_length_L
              p.crash_barrier_width p.crash_barrier_height
              p.crash_barrier_base_width) 0
            (p.carriageway_width / 2 + p.crash_barrier_base_width / 2)
            z false,
          place_crash_barrier
            (create_crash_barrier_left p.span_length_L
              p.crash_barrier_width p.crash_barrier_height
              p.crash_barrier_base_width) 0
            (-(p.carriageway_width / 2 + p.crash_barrier_base_width / 2))
            z false]
    ∧ build_crash_barrier {p with footpath_config := "NONE"} z
        = .ok [place_crash_barrier
            (create_crash_barrier_right p.span_length_L
              p.crash_barrier_width p.crash_barrier_height
              p.crash_barrier_base_width) 0
            ((p.carriageway_width + 2 * p.crash_barrier_base_width) / 2
              - p.crash_barrier_base_width / 2) z false,
          place_crash_barrier
            (create_crash_barrier_left p.span_length_L
              p.crash_barrier_width p.crash_barrier_height
              p.crash_barrier_base_width) 0
            (-((p.carriageway_width + 2 * p.crash_barrier_base_width) / 2
              - p.crash_barrier_base_width / 2)) z false]
    ∧ build_crash_barrier {p with footpath_config := "LEFT"} z
        = .ok [place_crash_barrier
            (create_crash_barrier_right p.span_length_L
              p.crash_barrier_width p.crash_barrier_height
              p.crash_barrier_base_width) 0
            ((p.carriageway_width + 2 * p.crash_barrier_base_width
                + p.footpath_width + p.railing_width) / 2
              - p.crash_barrier_base_width / 2) z false,
          place_crash_barrier
            (create_crash_barrier_left p.span_length_L
              p.crash_barrier_width p.crash_barrier_height
              p.crash_barrier_base_width) 0
            ((p.footpath_width + p.railing_width) / 2
              - p.carriageway_width / 2
              - p.crash_barrier_base_width / 2) z false]
    ∧ build_crash_barrier {p with footpath_config := "RIGHT"} z
        = .ok [place_crash_barrier
            (create_crash_barrier_left p.span_length_L
              p.crash_barrier_width p.crash_barrier_height
              p.crash_barrier_base_width) 0
            (-((p.carriageway_width + 2 * p.crash_barrier_base_width
                + p.footpath_width + p.railing_width) / 2)
              + p.crash_barrier_base_width / 2) z false,
          place_crash_barrier
            (create_crash_barrier_right p.span_length_L
              p.crash_barrier_width p.crash_barrier_height
              p.crash_barrier_base_width) 0
            (-((p.footpath_width + p.railing_width) / 2)
              + p.carriageway_width / 2
              + p.crash_barrier_base_width / 2) z false] := by
  refine ⟨rfl, ?_, ?_, ?_, ?_⟩
  all_goals
    simp only [build_crash_barrier, calculate_deck_width,
      calculate_carriageway_offset, place_crash_barrier, translate]
  all_goals simp
  all_goals simp only [pure, Except.pure, Except.ok.injEq,
    List.cons.injEq, Shape.translate.injEq, and_true, true_and]
  all_goals ring

/-- C10: `build_railing` returns no railing for footpath configuration
`NONE`; exactly one railing at the left deck edge for `LEFT`; exactly one
at the right deck edge for `RIGHT`; and exactly two, placed symmetrically
at `y = ±(total_deck_width / 2 - railing_width / 2)`, for `BOTH` — always
at height `z = deck_top_z`.  Railings exist only on sides that have a
footpath. -/
theorem build_railing_per_footpath_config (p : Params) (z : ℚ) :
    build_railing {p with footpath_config := "NONE"} z = .ok []
    ∧ build_railing {p with footpath_config := "LEFT"} z
        = (create_railing p.span_length_L p.railing_width
            p.railing_height p.rail_count).map
            (fun base => [place_railing base (p.span_length_L / 2)
              (-((p.carriageway_width + 2 * p.crash_barrier_base_width
                  + p.footpath_width + p.railing_width) / 2
                - p.railing_width / 2)) z])
    ∧ build_railing {p with footpath_config := "RIGHT"} z
        = (create_railing p.span_length_L p.railing_width
            p.railing_height p.rail_count).map
            (fun base => [place_railing base (p.span_length_L / 2)
              ((p.carriageway_width + 2 * p.crash_barrier_base_width
                  + p.footpath_width + p.railing_width) / 2
                - p.railing_width / 2) z])
    ∧ build_railing {p with footpath_config := "BOTH"} z
        = (create_railing p.span_length_L p.railing_width
            p.railing_height p.rail_count).map
            (fun base =>
              [place_railing base (p.span_length_L / 2)
                (-((p.carriageway_width + 2 * p.crash_barrier_base_width
                    + 2 * p.footpath_width + 2 * p.railing_width) / 2
                  - p.railing_width / 2)) z,
               place_railing base (p.span_length_L / 2)
                ((p.carriageway_width + 2 * p.crash_barrier_base_width
                    + 2 * p.footpath_width + 2 * p.railing_width) / 2
                  - p.railing_width / 2) z]) := by
  cases hr : create_railing p.span_length_L p.railing_width
      p.railing_height p.rail_count with
  | error e =>
      refine ⟨?_, ?_, ?_, ?_⟩
      all_goals simp [build_railing, calculate_deck_width, hr, Except.map,
        pure, Except.pure, Bind.bind, Except.bind]
  | ok base =>
      refine ⟨?_, ?_, ?_, ?_⟩
      all_goals simp [build_railing, calculate_deck_width, hr, Except.map,
        place_railing, translate, pure, Except.pure, Bind.bind, Except.bind]

/-- C7: every builder is a pure function of the module parameters — the
embedding gives each builder the `Params` record as its only input, there
is no other state — so evaluating the builders in the reverse order
produces the same assembly whenever the assembly succeeds, and the same
failure behaviour otherwise (both orders fail exactly when some builder
fails). -/
theorem assemble_bridge_order_independent (p : Params) :
    (assemble_bridge p).toOption
      = (assemble_bridge_reordered p).toOption := by
  cases h1 : build_cross_bracing p <;>
  cases h2 : build_deck p <;>
  cases h3 : build_crash_barrier p (p.girder_section_d + p.deck_thickness)
    <;>
  cases h4 : build_railing p (p.girder_section_d + p.deck_thickness) <;>
  simp [assemble_bridge, assemble_bridge_reordered, h1, h2, h3, h4,
    Except.toOption, Bind.bind, Except.bind, pure, Except.pure]

/-- Folding a function that appends one element to the first list and two
to the second grows the lists by `n` and `2 * n` over `List.range n`. -/
theorem foldl_two_append_length {β : Type}
    (F : (List β × List β) → ℕ → (List β × List β))
    (hF : ∀ acc i, (F acc i).1.length = acc.1.length + 1
      ∧ (F acc i).2.length = acc.2.length + 2) :
    ∀ (n : ℕ) (init : List β × List β),
      ((List.range n).foldl F init).1.length = init.1.length + n
      ∧ ((List.range n).foldl F init).2.length = init.2.length + 2 * n := by
  intro n
  induction n with
  | zero => intro init; simp
  | succ k ih =>
      intro init
      rw [List.range_succ, List.foldl_append]
      have h1 := ih init
      have h2 := hF ((List.range k).foldl F init) k
      simp only [List.foldl_cons, List.foldl_nil]
      constructor
      · rw [h2.1, h1.1]; omega
      · rw [h2.2, h1.2]; omega

/-- `build_girders` produces one girder and two stiffeners per girder
index. -/
theorem build_girders_lengths (p : Params) :
    (build_girders p).1.length = p.num_girders
    ∧ (build_girders p).2.length = 2 * p.num_girders := by
  have h := foldl_two_append_length (build_girders_step p)
    (fun acc i => by simp [build_girders_step]) p.num_girders ([], [])
  simp only [build_girders]
  rw [h.1, h.2]
  simp

/-- Components of a successful assembly are exactly the builders'
outputs, with the barriers and railings built at
`deck_top_z = girder_section_d + deck_thickness`. -/
theorem assemble_ok_components (p : Params) (c : BridgeComponents)
    (h : assemble_bridge p = .ok c) :
    c.girders = (build_girders p).1
    ∧ c.stiffeners = (build_girders p).2
    ∧ build_cross_bracing p = .ok c.cross_bracings
    ∧ build_deck p = .ok c.deck
    ∧ build_crash_barrier p (p.girder_section_d + p.deck_thickness)
        = .ok c.crash_barriers
    ∧ build_railing p (p.girder_section_d + p.deck_thickness)
        = .ok c.railings := by
  cases h1 : build_cross_bracing p with
  | error e => simp [assemble_bridge, h1, Bind.bind, Except.bind] at h
  | ok cb =>
      cases h2 : build_deck p with
      | error e =>
          simp [assemble_bridge, h1, h2, Bind.bind, Except.bind] at h
      | ok d =>
          cases h3 : build_crash_barrier p
              (p.girder_section_d + p.deck_thickness) with
          | error e =>
              simp [assemble_bridge, h1, h2, h3, Bind.bind,
                Except.bind] at h
          | ok bars =>
              cases h4 : build_railing p
                  (p.girder_section_d + p.deck_thickness) with
              | error e =>
                  simp [assemble_bridge, h1, h2, h3, h4, Bind.bind,
                    Except.bind] at h
              | ok rls =>
                  simp only [assemble_bridge, h1, h2, h3, h4, Bind.bind,
                    Except.bind, pure, Except.pure,
                    Except.ok.injEq] at h
                  subst h
                  exact ⟨rfl, rfl, rfl, rfl, rfl, rfl⟩

/-- Every crash barrier built at height `z` is a translate node whose
vertical component is exactly `z` (and whose `x` component is 0). -/
theorem build_crash_barrier_heights (p : Params) (z : ℚ) (l : List Shape)
    (h : build_crash_barrier p z = .ok l) :
    ∀ b ∈ l, ∃ s y, b = Shape.translate s 0 y z := by
  simp only [build_crash_barrier, place_crash_barrier, translate,
    Bind.bind, Except.bind, Bool.false_eq_true, reduceIte] at h
  cases h1 : calculate_deck_width p p.footpath_config with
  | error e => rw [h1] at h; simp at h
  | ok w =>
      rw [h1] at h
      cases h2 : calculate_carriageway_offset p p.footpath_config with
      | error e => rw [h2] at h; simp at h
      | ok off =>
          rw [h2] at h
          split_ifs at h
          all_goals simp only [pure, Except.pure, Except.ok.injEq] at h
          all_goals subst h
          all_goals intro b hb
          all_goals simp only [List.mem_cons, List.not_mem_nil,
            or_false] at hb
          all_goals rcases hb with rfl | rfl
          all_goals exact ⟨_, _, rfl⟩

theorem build_railing_heights (p : Params) (z : ℚ) (l : List Shape)
    (h : build_railing p z = .ok l) :
    ∀ r ∈ l, ∃ s y, r = Shape.translate s (p.span_length_L / 2) y z := by
  simp only [build_railing, place_railing, translate, Bind.bind,
    Except.bind] at h
  split_ifs at h
  · simp only [pure, Except.pure, Except.ok.injEq] at h
    subst h
    intro r hr
    simp at hr
  all_goals
    cases hc : create_railing p.span_length_L p.railing_width
        p.railing_height p.rail_count with
    | error e => rw [hc] at h; simp at h
    | ok base =>
        rw [hc] at h
        cases h2 : calculate_deck_width p p.footpath_config with
        | error e => rw [h2] at h; simp at h
        | ok w =>
            rw [h2] at h
            simp only [pure, Except.pure, Except.ok.injEq,
              List.append_nil, List.nil_append] at h
            subst h
            intro r hr
            fin_cases hr <;> exact ⟨_, _, rfl⟩

/-- Concrete evaluation of the whole assembly on `smallParams`: one
girder with its two stiffeners, no bracing pairs (a single girder has no
adjacent pair), the deck, the two crash barriers at
`deck_top_z = 900 + 400 = 1300`, and no railings (`footpath_config`
is `NONE`). -/
theorem assemble_smallParams_ok :
    assemble_bridge smallParams = .ok
      ⟨[Shape.translate (Shape.iSection 200 500 900 260 100) 0 0 0],
       [Shape.translate
          (Shape.translate (Shape.box 300 200 380) (-100) 0 260) 0 0 0,
        Shape.translate
          (Shape.translate (Shape.box 300 200 380) (-100) 300 260)
          0 0 0],
       [],
       Shape.translate
         (Shape.translate (Shape.box 200 12900 400) (-100) (-6450) 0)
         100 0 900,
       [Shape.translate
          (Shape.translate
            (Shape.prismYZ [(0, 0), (450, 0), (450, 100), (625/2, 350),
              (175, 900), (0, 900)] 200) 0 (-225) 0) 0 6225 1300,
        Shape.translate
          (Shape.mirrorY
            (Shape.translate
              (Shape.prismYZ [(0, 0), (450, 0), (450, 100), (625/2, 350),
                (175, 900), (0, 900)] 200) 0 (-225) 0)) 0 (-6225) 1300],
       []⟩ := by
  have hpy : pyInt ((200:ℚ)/150) = 1 := by norm_num [pyInt]
  have hg : build_girders smallParams =
      ([Shape.translate (Shape.iSection 200 500 900 260 100) 0 0 0],
       [Shape.translate
          (Shape.translate (Shape.box 300 200 380) (-100) 0 260) 0 0 0,
        Shape.translate
          (Shape.translate (Shape.box 300 200 380) (-100) 300 260)
          0 0 0]) := by
    simp only [build_girders, smallParams, moduleParams]
    norm_num [List.range_succ, build_girders_step, create_i_section,
      create_girder_stiffeners, translate]
  have hcb : build_cross_bracing smallParams = .ok [] := by
    simp only [build_cross_bracing, smallParams, moduleParams,
      cross_bracing_x_positions, hpy, cross_bracing_section_props,
      get_section_props, SECTION_DATABASE, ISA_SECTIONS]
    norm_num [List.lookup, Bind.bind, Except.bind, pure, Except.pure]
    simp [List.range_succ, exceptFlatMap, Bind.bind, Except.bind, pure,
      Except.pure]
  have hd : build_deck smallParams = .ok
      (Shape.translate
        (Shape.translate (Shape.box 200 12900 400) (-100) (-6450) 0)
        100 0 900) := by
    simp only [build_deck, smallParams, moduleParams,
      calculate_deck_width, create_deck_slab, create_rectangular_prism,
      translate]
    norm_num [Bind.bind, Except.bind, pure, Except.pure]
  have hbar : build_crash_barrier smallParams 1300 = .ok
      [Shape.translate
         (Shape.translate
           (Shape.prismYZ [(0, 0), (450, 0), (450, 100), (625/2, 350),
             (175, 900), (0, 900)] 200) 0 (-225) 0) 0 6225 1300,
       Shape.translate
         (Shape.mirrorY
           (Shape.translate
             (Shape.prismYZ [(0, 0), (450, 0), (450, 100), (625/2, 350),
               (175, 900), (0, 900)] 200) 0 (-225) 0)) 0 (-6225) 1300]
      := by
    simp only [build_crash_barrier, smallParams, moduleParams,
      calculate_deck_width, calculate_carriageway_offset,
      place_crash_barrier, create_crash_barrier_left,
      create_crash_barrier_right, create_crash_barrier,
      crashBarrierProfile, mirror_y, translate]
    norm_num [Bind.bind, Except.bind, pure, Except.pure]
  have hrail : build_railing smallParams 1300 = .ok [] := by
    simp [build_railing, smallParams, moduleParams, pure, Except.pure]
  have hz : smallParams.girder_section_d + smallParams.deck_thickness
      = (1300:ℚ) := by
    norm_num [smallParams, moduleParams]
  simp [assemble_bridge, hg, hcb, hd, hz, hbar, hrail, Bind.bind,
    Except.bind, pure, Except.pure]

/-- C5: a successful `assemble_bridge` run returns exactly the six
component groups the builders produce — girders, stiffeners, cross
bracings, deck, crash barriers and railings — and both the crash barriers
and the railings are placed at height
`deck_top_z = girder_section_d + deck_thickness`, the top surface of the
deck above the girders. -/
theorem assemble_bridge_returns_all_components (p : Params)
    (c : BridgeComponents) (h : assemble_bridge p = .ok c) :
    c.girders = (build_girders p).1
    ∧ c.stiffeners = (build_girders p).2
    ∧ build_cross_bracing p = .ok c.cross_bracings
    ∧ build_deck p = .ok c.deck
    ∧ build_crash_barrier p (p.girder_section_d + p.deck_thickness)
        = .ok c.crash_barriers
    ∧ build_railing p (p.girder_section_d + p.deck_thickness)
        = .ok c.railings
    ∧ (∀ b ∈ c.crash_barriers, ∃ s y,
        b = Shape.translate s 0 y (p.girder_section_d + p.deck_thickness))
    ∧ (∀ r ∈ c.railings, ∃ s y,
        r = Shape.translate s (p.span_length_L / 2) y
          (p.girder_section_d + p.deck_thickness)) := by
  obtain ⟨h1, h2, h3, h4, h5, h6⟩ := assemble_ok_components p c h
  exact ⟨h1, h2, h3, h4, h5, h6,
    build_crash_barrier_heights p _ _ h5,
    build_railing_heights p _ _ h6⟩

/-- Witness for `assemble_bridge_returns_all_components` at
`smallParams`. -/
theorem assemble_bridge_returns_all_components_witness :
    ((assemble_bridge smallParams).toOption.getD emptyComponents).girders
      = (build_girders smallParams).1 := by
  have hok : assemble_bridge smallParams
      = .ok ((assemble_bridge smallParams).toOption.getD
          emptyComponents) := by
    rw [assemble_smallParams_ok]
    rfl
  exact (assemble_bridge_returns_all_components smallParams _ hok).1

/-- C6 counterexample: there is no separate stiffener builder — the
stiffeners are constructed inside `build_girders`, whose second component
is a non-empty stiffener list (two stiffeners per girder, ten at the
module's five girders).  A dedicated `build_stiffeners` does not exist in
src/bridge_model.py. -/
theorem build_girders_constructs_stiffeners :
    (build_girders moduleParams).2.length = 2 * moduleParams.num_girders
    ∧ (build_girders moduleParams).2 ≠ [] := by
  have h := (build_girders_lengths moduleParams).2
  refine ⟨h, ?_⟩
  intro hnil
  rw [hnil] at h
  simp [moduleParams] at h

/-- C6 amended: the assembly is organised as five independently callable
builders — `build_girders`, `build_deck`, `build_cross_bracing`,
`build_crash_barrier` and `build_railing`; there is no `build_stiffeners`,
and the girder stiffeners are instead constructed inside `build_girders`
(via `create_girder_stiffeners`), which returns them as its second
component, two per girder; `assemble_bridge`'s stiffener group is exactly
that component. -/
theorem stiffeners_built_inside_build_girders (p : Params)
    (c : BridgeComponents) (h : assemble_bridge p = .ok c) :
    c.stiffeners = (build_girders p).2
    ∧ c.stiffeners.length = 2 * p.num_girders
    ∧ c.girders = (build_girders p).1
    ∧ c.girders.length = p.num_girders := by
  obtain ⟨h1, h2, _, _, _, _⟩ := assemble_ok_components p c h
  have hl := build_girders_lengths p
  exact ⟨h2, by rw [h2, hl.2], h1, by rw [h1, hl.1]⟩

/-- Witness for `stiffeners_built_inside_build_girders` at
`smallParams`. -/
theorem stiffeners_built_inside_build_girders_witness :
    ((assemble_bridge smallParams).toOption.getD
        emptyComponents).stiffeners
      = (build_girders smallParams).2 := by
  have hok : assemble_bridge smallParams
      = .ok ((assemble_bridge smallParams).toOption.getD
          emptyComponents) := by
    rw [assemble_smallParams_ok]
    rfl
  exact (stiffeners_built_inside_build_girders smallParams _ hok).1

/-- If every call in a loop succeeds with `k` members, the loop's
`extend`-accumulation succeeds with `k` members per iteration. -/
theorem exceptFlatMap_length {α β ε : Type} (f : α → Except ε (List β))
    (k : ℕ) :
    ∀ as : List α, (∀ a ∈ as, ∃ l, f a = .ok l ∧ l.length = k) →
      ∃ l, exceptFlatMap f as = .ok l ∧ l.length = k * as.length := by
  intro as
  induction as with
  | nil => intro _; exact ⟨[], rfl, by simp⟩
  | cons a as ih =>
      intro hmem
      obtain ⟨la, ha, hla⟩ := hmem a (by simp)
      obtain ⟨lr, hr, hlr⟩ := ih (fun x hx => hmem x (by simp [hx]))
      refine ⟨la ++ lr, ?_, ?_⟩
      · simp [exceptFlatMap, ha, hr, Bind.bind, Except.bind, pure,
          Except.pure]
      · simp only [List.length_append, List.length_cons, hla, hlr]
        ring

/-- The positions of the cross-bracing frames at the module's span and
spacing: seven frames, the first at `x = 0`, the last exactly at
`x = 25000`, equally spaced at `25000 / 6`. -/
theorem cross_bracing_x_positions_module :
    cross_bracing_x_positions 25000 4000
      = [0, 12500/3, 25000/3, 12500, 50000/3, 62500/3, 25000]
    ∧ pyInt ((25000:ℚ)/4000) = 6 := by
  have hpy : pyInt ((25000:ℚ)/4000) = 6 := by norm_num [pyInt]
  refine ⟨?_, hpy⟩
  simp only [cross_bracing_x_positions, hpy]
  norm_num
  simp [List.range_succ]
  norm_num

/-- The `K` branch of `build_cross_bracing`: when the bracing type is
`K`, the section properties resolve, every bracing call yields `k`
members and the spacing divisor is nonzero, the builder succeeds with `k`
members per adjacent girder pair per frame position. -/
theorem build_cross_bracing_K_length (p : Params)
    (hb : p.bracing_type = "K") (props : Props)
    (hp : cross_bracing_section_props p = .ok props) (k : ℕ)
    (hcall : ∀ x yl yr : ℚ, ∃ l,
      create_k_bracing_between_girders x yl yr p.girder_section_d
        p.girder_section_tf p.cross_bracing_thickness p.girder_section_bf
        p.k_top_bracket p.cross_bracing_section_type (some props) 1
      = .ok l ∧ l.length = k)
    (hnz : ¬(pyInt (p.span_length_L / p.cross_bracing_spacing) - 1 + 2 - 1
      = 0)) :
    ∃ l, build_cross_bracing p = .ok l
      ∧ l.length = (k * (List.range (p.num_girders - 1)).length)
          * (cross_bracing_x_positions p.span_length_L
              p.cross_bracing_spacing).length := by
  simp only [build_cross_bracing]
  rw [hp]
  simp only [Bind.bind, Except.bind]
  rw [if_neg hnz]
  apply exceptFlatMap_length
  intro x _
  apply exceptFlatMap_length
  intro g _
  simp only [hb, reduceIte]
  exact hcall x _ _

/-- C9: what `build_cross_bracing` actually does.  With the module's
`bracing_type = "X"` (section type corrected to `ANGLE` so that the
module-level section lookup succeeds), the builder raises `TypeError` at
the very first bracing call — `bridge_model.py` passes the keyword
arguments `section_type` and `section_props`, which the
`cross_bracing` package's `create_x_bracing_between_girders` does not
accept — so no bracing set is ever produced.  With the configured
`DOUBLE_ANGLE` section type the builder fails even earlier, at the
module-level property lookup.  The intended placement arithmetic is
nevertheless exactly the claimed one, as the `K` branch shows: seven
equally spaced frames from `x = 0` to `x = span_length` (`n_total =
int(25000/4000) + 1 = 7`), one bracing set per adjacent girder pair per
frame — `7 * 4` sets of four members each. -/
theorem build_cross_bracing_eval :
    build_cross_bracing xAngleParams = .error .unexpectedKeywordArgument
    ∧ build_cross_bracing moduleParams
        = .error (.unsupportedSectionType "DOUBLE_ANGLE")
    ∧ cross_bracing_x_positions 25000 4000
        = [0, 12500/3, 25000/3, 12500, 50000/3, 62500/3, 25000]
    ∧ pyInt ((25000:ℚ)/4000) = 6
    ∧ (∃ l, build_cross_bracing kAngleParams = .ok l
        ∧ l.length = 7 * 4 * 4) := by
  obtain ⟨hxp, hpy⟩ := cross_bracing_x_positions_module
  have hpropsX : cross_bracing_section_props xAngleParams
      = .ok propsISA90 := rfl
  have hpropsK : cross_bracing_section_props kAngleParams
      = .ok propsISA90 := rfl
  refine ⟨?_, ?_, hxp, hpy, ?_⟩
  · simp only [build_cross_bracing]
    rw [hpropsX]
    simp only [Bind.bind, Except.bind, xAngleParams, moduleParams]
    rw [hpy]
    norm_num
    rw [hxp]
    simp [exceptFlatMap, List.range_succ, Bind.bind, Except.bind]
  · have hce : cross_bracing_section_props moduleParams
        = .error (.unsupportedSectionType "DOUBLE_ANGLE") := rfl
    simp [build_cross_bracing, hce, Bind.bind, Except.bind]
  · have hroll : ∀ rs : ℤ,
        get_section_roll_angle "ANGLE" "horizontal" rs
          = 2 * (15708/10000) :=
      fun _ => rfl
    have hsec : ∀ L : ℚ, create_section_solid "ANGLE" L 100
        (some propsISA90) = .ok (create_angle_section L 90 60 6) :=
      fun _ => rfl
    have hdiag : ∀ (p1 p2 : Pnt) (rs : ℤ),
        create_diagonal_member p1 p2 100 "ANGLE" (some propsISA90) rs
          = .ok (Shape.diagonalMember p1 p2 100 "ANGLE" rs) :=
      fun _ _ _ => rfl
    have hhor : ∀ x yl yr z : ℚ, ∀ rs : ℤ,
        create_horizontal_member_y x yl yr z 100 500 "ANGLE"
          (some propsISA90) rs
        = .ok (Shape.translate
            (Shape.rotate
              (Shape.rotate (create_angle_section (yr - (yl + 500)) 90 60 6)
                0 0 1 (15708/10000))
              0 1 0 (2 * (15708/10000)))
            x ((yl + 500 + yr) / 2) z) := by
      intro x yl yr z rs
      simp only [create_horizontal_member_y, hsec, hroll, Bind.bind,
        Except.bind]
      have habs : |((3927:ℚ)/1250)| = 3927/1250 := abs_of_pos (by norm_num)
      norm_num [habs]
      rfl
    have hk : ∀ x yl yr : ℚ, ∃ l,
        create_k_bracing_between_girders x yl yr 900 260 100 500 true
          "ANGLE" (some propsISA90) 1 = .ok l ∧ l.length = 4 := by
      intro x yl yr
      simp only [create_k_bracing_between_girders, hdiag, hhor, Bind.bind,
        Except.bind, reduceIte]
      exact ⟨_, rfl, rfl⟩
    have hnz : ¬(pyInt (kAngleParams.span_length_L
        / kAngleParams.cross_bracing_spacing) - 1 + 2 - 1 = 0) := by
      have : kAngleParams.span_length_L
          / kAngleParams.cross_bracing_spacing = (25000:ℚ)/4000 := rfl
      rw [this, hpy]
      norm_num
    obtain ⟨l, hl, hlen⟩ := build_cross_bracing_K_length kAngleParams rfl
      propsISA90 hpropsK 4 (fun x yl yr => hk x yl yr) hnz
    refine ⟨l, hl, ?_⟩
    rw [hlen]
    have hxp2 : cross_bracing_x_positions kAngleParams.span_length_L
        kAngleParams.cross_bracing_spacing
        = [0, 12500/3, 25000/3, 12500, 50000/3, 62500/3, 25000] := hxp
    rw [hxp2]
    norm_num
    rfl

end BridgeCad
